import Mathlib

/-!
Verification development for the particle-source lifecycle subsystem
(`code/particle/ParticleSource.h`).

The repository fragment ships only the header: the inline member functions
(`getObjectHost`, `setEffect`, the accessors) are embedded here directly from
that source.  The out-of-line member bodies (`SourceOrigin::isValid`,
`SourceOrigin::moveTo`, `SourceTiming::isActive`, `ParticleSource::process`,
...) are not part of the fragment, so those definitions are modelled from the
specification document; each such definition carries a doc comment starting
with `Modelled from the spec:`.

Machine numbers are modelled as follows: timestamps are `Int` (the header
declares them `int`); the float returned by `getLifeTimeProgress` is modelled
as `Rat`, which agrees exactly with IEEE arithmetic on the dyadic values the
claims mention; vector components are `Int`, since no claim depends on
fractional coordinates.  The C++ fatal `Assert` is modelled as the `.error`
branch of an `Except AssertViolation` result.
-/

/-- World-space vector, the shallow embedding of `vec3d`. -/
structure vec3d where
  x : Int
  y : Int
  z : Int
deriving DecidableEq

def vec3d.zero : vec3d := ⟨0, 0, 0⟩

def vec3d.add (a b : vec3d) : vec3d := ⟨a.x + b.x, a.y + b.y, a.z + b.z⟩

def vec3d.scale (k : Int) (a : vec3d) : vec3d := ⟨k * a.x, k * a.y, k * a.z⟩

/-- The 3x3 frame, the shallow embedding of `matrix` (rows rvec, uvec, fvec
as in the engine). -/
structure matrix where
  rvec : vec3d
  uvec : vec3d
  fvec : vec3d
deriving DecidableEq

def matrix.ident : matrix := ⟨⟨1, 0, 0⟩, ⟨0, 1, 0⟩, ⟨0, 0, 1⟩⟩

/-- Rotating a local offset into a frame (the engine vm_vec_unrotate):
x scales rvec, y scales uvec, z scales fvec, summed. -/
def matrix.unrotate (m : matrix) (v : vec3d) : vec3d :=
  (vec3d.scale v.x m.rvec).add ((vec3d.scale v.y m.uvec).add (vec3d.scale v.z m.fvec))

/-- The weapon lifecycle state enum (forward-declared in the header).
`INVALID` doubles as the default no-restriction value of the origin field. -/
inductive WeaponState where
  | INVALID
  | NORMAL
  | ARMED
  | UNARMED
deriving DecidableEq

/-- A live entity in the entity table: generation signature plus the queries
the spec lists for the entity-table collaborator (position, frame, velocity,
lifecycle state). -/
structure Entity where
  signature : Int
  pos : vec3d
  orient : matrix
  vel : vec3d
  weaponState : WeaponState
deriving DecidableEq

/-- A live particle in the particle table: generation signature plus current
position. -/
structure Particle where
  signature : Int
  pos : vec3d
deriving DecidableEq

/-- The shared simulation state the weak references resolve against: the
entity table, the particle table, and the monotone generation counter that
stamps newly spawned entries. -/
structure World where
  objects : Nat → Option Entity
  particles : Nat → Option Particle
  nextSig : Int

/-- Well-formedness of a world: every signature stored in a table slot is
below the generation counter, so a fresh spawn never reuses a signature. -/
def WorldWF (w : World) : Prop :=
  (∀ s e, w.objects s = some e → e.signature < w.nextSig) ∧
  (∀ s p, w.particles s = some p → p.signature < w.nextSig)

/-- Weak entity handle, the shallow embedding of `object_h`: the cached raw
pointer `objp` (modelled as the table slot the pointer aims at, `none` for
nullptr), the slot number and the captured signature. -/
structure object_h where
  objp : Option Nat
  objnum : Int
  sig : Int
deriving DecidableEq

/-- Default-constructed `object_h`: null pointer, invalid slot and signature. -/
def object_h.null : object_h := ⟨none, -1, -1⟩

/-- Modelled from the spec: resolving a weak entity handle against the entity
table compares the stored generation signature with the current occupant of
the slot and yields an explicit not-found result on any mismatch. -/
def object_h.resolve (h : object_h) (w : World) : Option Entity :=
  match h.objp with
  | none => none
  | some slot =>
    match w.objects slot with
    | none => none
    | some e => if e.signature = h.sig then some e else none

/-- Weak particle handle, the shallow embedding of `WeakParticlePtr`:
particle-table slot plus captured generation signature. -/
structure WeakParticlePtr where
  pslot : Option Nat
  psig : Int
deriving DecidableEq

def WeakParticlePtr.null : WeakParticlePtr := ⟨none, -1⟩

/-- Modelled from the spec: resolving a weak particle handle against the
particle table, with the same generation check as for entities. -/
def WeakParticlePtr.resolve (h : WeakParticlePtr) (w : World) : Option Particle :=
  match h.pslot with
  | none => none
  | some slot =>
    match w.particles slot with
    | none => none
    | some p => if p.signature = h.psig then some p else none

/-- The origin type enum from the header. -/
inductive SourceOriginType where
  | NONE
  | VECTOR
  | OBJECT
  | PARTICLE
deriving DecidableEq

/-- The anonymous union-like struct inside `SourceOrigin` holding the three
per-type payload fields, all present at once as in the source. -/
structure OriginUnion where
  m_pos : vec3d
  m_object : object_h
  m_particle : WeakParticlePtr
deriving DecidableEq

/-- The shallow embedding of `SourceOrigin`, field for field. -/
structure SourceOrigin where
  m_originType : SourceOriginType
  m_origin : OriginUnion
  m_weaponState : WeaponState
  m_offset : vec3d
deriving DecidableEq

/-- Modelled from the spec: the default constructor gives an invalid origin
(type NONE, null handles, no weapon-state restriction, zero offset). -/
def SourceOrigin.new : SourceOrigin :=
  ⟨SourceOriginType.NONE, ⟨vec3d.zero, object_h.null, WeakParticlePtr.null⟩,
   WeaponState.INVALID, vec3d.zero⟩

/-- Embedded from the header source: `return m_origin.m_object.objp;` — the
cached raw pointer is returned with no type, null or liveness check. -/
def SourceOrigin.getObjectHost (o : SourceOrigin) : Option Nat :=
  o.m_origin.m_object.objp

/-- Modelled from the spec: NONE is never valid; VECTOR always is; OBJECT is
valid iff the weak entity handle resolves and either no weapon-state
restriction is set (the INVALID default) or the current state of the entity
equals the restriction; PARTICLE is valid iff the weak particle handle
resolves. -/
def SourceOrigin.isValid (o : SourceOrigin) (w : World) : Bool :=
  match o.m_originType with
  | SourceOriginType.NONE => false
  | SourceOriginType.VECTOR => true
  | SourceOriginType.OBJECT =>
    match o.m_origin.m_object.resolve w with
    | none => false
    | some e => o.m_weaponState == WeaponState.INVALID || e.weaponState == o.m_weaponState
  | SourceOriginType.PARTICLE => (o.m_origin.m_particle.resolve w).isSome

/-- Modelled from the spec: the current world position of the origin.  VECTOR
returns the stored point; OBJECT re-reads the live transform of the host and
adds the offset rotated into the current host frame; PARTICLE adds the offset
to the current particle position; NONE (and a dead host, a caller-error
condition) yields the zero sentinel. -/
def SourceOrigin.getGlobalPosition (o : SourceOrigin) (w : World) : vec3d :=
  match o.m_originType with
  | SourceOriginType.NONE => vec3d.zero
  | SourceOriginType.VECTOR => o.m_origin.m_pos
  | SourceOriginType.OBJECT =>
    match o.m_origin.m_object.resolve w with
    | none => vec3d.zero
    | some e => e.pos.add (e.orient.unrotate o.m_offset)
  | SourceOriginType.PARTICLE =>
    match o.m_origin.m_particle.resolve w with
    | none => vec3d.zero
    | some p => p.pos.add o.m_offset

/-- Modelled from the spec: the current host velocity for OBJECT origins,
zero for every other origin type. -/
def SourceOrigin.getVelocity (o : SourceOrigin) (w : World) : vec3d :=
  match o.m_originType with
  | SourceOriginType.OBJECT =>
    match o.m_origin.m_object.resolve w with
    | none => vec3d.zero
    | some e => e.vel
  | _ => vec3d.zero

/-- Modelled from the spec: restricts OBJECT-type validity to hosts currently
in the given lifecycle state. -/
def SourceOrigin.setWeaponState (o : SourceOrigin) (state : WeaponState) : SourceOrigin :=
  { o with m_weaponState := state }

/-- Modelled from the spec: sets type VECTOR and stores the point; always
succeeds. -/
def SourceOrigin.moveTo (o : SourceOrigin) (pos : vec3d) : SourceOrigin :=
  { o with m_originType := SourceOriginType.VECTOR,
           m_origin := { o.m_origin with m_pos := pos } }

/-- Failure values of the fatal `Assert` contract checks. -/
inductive AssertViolation where
  | nullEffect
  | nullHost
deriving DecidableEq

/-- Modelled from the spec: sets type OBJECT and captures a weak handle to
the host (slot plus the signature read through the pointer at call time)
together with the offset; a null host pointer is a precondition violation. -/
def SourceOrigin.moveToObject (o : SourceOrigin) (w : World) (objp : Option Nat)
    (offset : vec3d) : Except AssertViolation SourceOrigin :=
  match objp with
  | none => Except.error AssertViolation.nullHost
  | some slot =>
    match w.objects slot with
    | none => Except.error AssertViolation.nullHost
    | some e =>
      Except.ok { o with m_originType := SourceOriginType.OBJECT,
                         m_origin := { o.m_origin with m_object := ⟨some slot, slot, e.signature⟩ },
                         m_offset := offset }

/-- Modelled from the spec: sets type PARTICLE and captures the weak particle
handle. -/
def SourceOrigin.moveToParticle (o : SourceOrigin) (wpp : WeakParticlePtr) : SourceOrigin :=
  { o with m_originType := SourceOriginType.PARTICLE,
           m_origin := { o.m_origin with m_particle := wpp } }

/-- The shallow embedding of `SourceTiming`: the creation timestamp and the
activity window.  `none` is the unset sentinel — immediate for the begin
timestamp, never for the end timestamp. -/
structure SourceTiming where
  m_creationTimestamp : Int
  m_beginTimestamp : Option Int
  m_endTimestamp : Option Int
deriving DecidableEq

/-- Modelled from the spec: a fresh timing has both window ends unset, so the
source is active immediately and never finishes until a lifetime is set. -/
def SourceTiming.new : SourceTiming := ⟨0, none, none⟩

def SourceTiming.setCreationTimestamp (st : SourceTiming) (time : Int) : SourceTiming :=
  { st with m_creationTimestamp := time }

def SourceTiming.getCreationTime (st : SourceTiming) : Int := st.m_creationTimestamp

def SourceTiming.setLifetime (st : SourceTiming) (b e : Option Int) : SourceTiming :=
  { st with m_beginTimestamp := b, m_endTimestamp := e }

/-- Modelled from the spec: active iff the clock has reached the begin
timestamp (or begin is the immediate sentinel) and is strictly before the end
timestamp (or end is the never sentinel). -/
def SourceTiming.isActive (st : SourceTiming) (t : Int) : Bool :=
  (match st.m_beginTimestamp with
   | none => true
   | some b => decide (b ≤ t)) &&
  (match st.m_endTimestamp with
   | none => true
   | some e => decide (t < e))

/-- Modelled from the spec: finished iff the clock is at or past the end
timestamp; never finished when end is the unbounded sentinel. -/
def SourceTiming.isFinished (st : SourceTiming) (t : Int) : Bool :=
  match st.m_endTimestamp with
  | none => false
  | some e => decide (e ≤ t)

/-- Modelled from the spec: -1 unless the source is active and both window
ends are finite; otherwise the linear interpolation of the clock between
begin and end. -/
def SourceTiming.getLifeTimeProgress (st : SourceTiming) (t : Int) : Rat :=
  if st.isActive t then
    match st.m_beginTimestamp, st.m_endTimestamp with
    | some b, some e => ((t - b : Int) : Rat) / ((e - b : Int) : Rat)
    | _, _ => -1
  else -1

/-- The shallow embedding of `SourceOrientation`: the frame, the has-normal
flag and the stored normal. -/
structure SourceOrientation where
  m_orientation : matrix
  m_hasNormal : Bool
  m_normal : vec3d
deriving DecidableEq

/-- Modelled from the spec: a fresh orientation has the identity frame and no
normal (`m_hasNormal = false` is the header in-class default). -/
def SourceOrientation.new : SourceOrientation := ⟨matrix.ident, false, vec3d.zero⟩

/-- Deterministic frame completion around a forward axis.  The engine
normalizes the forward vector with float arithmetic and completes the frame
with arbitrary other axes; no claim depends on the frame content, so the
completion here stores the given vector as the forward axis directly. -/
def frameFromVector (v : vec3d) : matrix := ⟨vec3d.zero, vec3d.zero, v⟩

/-- Modelled from the spec: builds a frame whose forward axis comes from the
given (not necessarily normalized) vector. -/
def SourceOrientation.setFromVector (o : SourceOrientation) (v : vec3d) : SourceOrientation :=
  { o with m_orientation := frameFromVector v }

/-- Modelled from the spec: same as `setFromVector` with the normalization
step skipped (precondition: the vector is already unit length). -/
def SourceOrientation.setFromNormalizedVector (o : SourceOrientation) (v : vec3d) : SourceOrientation :=
  { o with m_orientation := frameFromVector v }

/-- Modelled from the spec: adopts an externally computed frame directly. -/
def SourceOrientation.setFromMatrix (o : SourceOrientation) (m : matrix) : SourceOrientation :=
  { o with m_orientation := m }

/-- Modelled from the spec: records the optional surface normal. -/
def SourceOrientation.setNormal (o : SourceOrientation) (normal : vec3d) : SourceOrientation :=
  { o with m_hasNormal := true, m_normal := normal }

/-- Modelled from the spec: when a normal was set, returns true and writes it
through the out pointer; otherwise returns false and leaves the pointed-to
memory untouched.  The out pointer is modelled by passing the current memory
content in and returning the (possibly updated) content. -/
def SourceOrientation.getNormal (o : SourceOrientation) (outNormal : vec3d) : Bool × vec3d :=
  if o.m_hasNormal then (true, o.m_normal) else (false, outNormal)

/-- Modelled from the spec: the forward axis of the frame. -/
def SourceOrientation.getDirectionVector (o : SourceOrientation) : vec3d :=
  o.m_orientation.fvec

/-- The data handed to the effect collaborator at emission time: resolved
position, orientation frame, velocity and lifetime progress. -/
structure EmissionInput where
  pos : vec3d
  orient : matrix
  vel : vec3d
  progress : Rat

/-- The external effect collaborator, by its interface only: the per-tick
emission capability (returning false signals a terminal state for the
source) and the finish-creation offset derivation (for example the
weapon-thruster-relative offset). -/
structure ParticleEffect where
  processSource : EmissionInput → Bool
  deriveOffset : SourceOrigin → vec3d

/-- The shallow embedding of `ParticleSource`, field for field; the raw
effect pointer becomes an `Option`. -/
structure ParticleSource where
  m_origin : SourceOrigin
  m_effectOrientation : SourceOrientation
  m_timing : SourceTiming
  m_effect : Option ParticleEffect
  m_processingCount : Nat

/-- Modelled from the spec: a fresh source with default sub-objects, no
effect and a zero processing count. -/
def ParticleSource.new : ParticleSource :=
  ⟨SourceOrigin.new, SourceOrientation.new, SourceTiming.new, none, 0⟩

def ParticleSource.getProcessingCount (s : ParticleSource) : Nat := s.m_processingCount

/-- Embedded from the header source: `Assert(eff != nullptr); m_effect = eff;`
— storing a null effect is a fatal contract violation. -/
def ParticleSource.setEffect (s : ParticleSource) (eff : Option ParticleEffect) :
    Except AssertViolation ParticleSource :=
  match eff with
  | none => Except.error AssertViolation.nullEffect
  | some e => Except.ok { s with m_effect := some e }

/-- Modelled from the spec: finishes creation once origin, orientation,
timing and effect are set, deriving the configuration that needs both the
effect and the origin (the thruster-offset adjustment); a null effect is a
fatal contract violation. -/
def ParticleSource.finishCreation (s : ParticleSource) : Except AssertViolation ParticleSource :=
  match s.m_effect with
  | none => Except.error AssertViolation.nullEffect
  | some eff =>
    Except.ok { s with m_origin := { s.m_origin with m_offset := eff.deriveOffset s.m_origin } }

/-- Modelled from the spec: the per-tick contract.  A null effect is a fatal
contract violation.  Step 1: invalid origin or finished timing returns false
(remove me).  Step 2: a pending source returns true without emitting.
Step 3: an active source delegates to the effect with the resolved position,
orientation, velocity and progress and increments the processing count.
Step 4: the return value is true unless the effect signals a terminal
state. -/
def ParticleSource.process (s : ParticleSource) (w : World) (t : Int) :
    Except AssertViolation (Bool × ParticleSource) :=
  match s.m_effect with
  | none => Except.error AssertViolation.nullEffect
  | some eff =>
    if !(s.m_origin.isValid w) || s.m_timing.isFinished t then
      Except.ok (false, s)
    else if !(s.m_timing.isActive t) then
      Except.ok (true, s)
    else
      Except.ok (eff.processSource
          ⟨s.m_origin.getGlobalPosition w, s.m_effectOrientation.m_orientation,
           s.m_origin.getVelocity w, s.m_timing.getLifeTimeProgress t⟩,
        { s with m_processingCount := s.m_processingCount + 1 })

/-- Modelled from the spec: a source is valid iff its origin is. -/
def ParticleSource.isValid (s : ParticleSource) (w : World) : Bool :=
  s.m_origin.isValid w

/-- Destroying the entity in a table slot. -/
def World.destroyObj (w : World) (slot : Nat) : World :=
  { w with objects := fun s => if s = slot then none else w.objects s }

/-- Spawning a fresh entity in a table slot, stamped with the current
generation counter (which then advances). -/
def World.spawnObj (w : World) (slot : Nat) (pos : vec3d) (orient : matrix)
    (vel : vec3d) (ws : WeaponState) : World :=
  { w with objects := fun s => if s = slot then some ⟨w.nextSig, pos, orient, vel, ws⟩
                               else w.objects s,
           nextSig := w.nextSig + 1 }

/-- Mutating the entity in a slot in place (movement, state change): the
signature is preserved. -/
def World.updateObj (w : World) (slot : Nat) (pos : vec3d) (orient : matrix)
    (vel : vec3d) (ws : WeaponState) : World :=
  { w with objects := fun s =>
      if s = slot then
        match w.objects slot with
        | none => none
        | some e => some ⟨e.signature, pos, orient, vel, ws⟩
      else w.objects s }

/-- Destroying the particle in a table slot. -/
def World.destroyPart (w : World) (slot : Nat) : World :=
  { w with particles := fun s => if s = slot then none else w.particles s }

/-- Spawning a fresh particle in a table slot, stamped with the current
generation counter. -/
def World.spawnPart (w : World) (slot : Nat) (pos : vec3d) : World :=
  { w with particles := fun s => if s = slot then some ⟨w.nextSig, pos⟩
                                 else w.particles s,
           nextSig := w.nextSig + 1 }

/-- One step of asynchronous world evolution between ticks: an entity or
particle is destroyed, spawned (possibly reusing a slot) or mutated in
place. -/
inductive WStep : World → World → Prop
  | destroyObj (w : World) (slot : Nat) : WStep w (w.destroyObj slot)
  | spawnObj (w : World) (slot : Nat) (pos : vec3d) (orient : matrix)
      (vel : vec3d) (ws : WeaponState) : WStep w (w.spawnObj slot pos orient vel ws)
  | updateObj (w : World) (slot : Nat) (pos : vec3d) (orient : matrix)
      (vel : vec3d) (ws : WeaponState) : WStep w (w.updateObj slot pos orient vel ws)
  | destroyPart (w : World) (slot : Nat) : WStep w (w.destroyPart slot)
  | spawnPart (w : World) (slot : Nat) (pos : vec3d) : WStep w (w.spawnPart slot pos)

/-- Any number of world-evolution steps. -/
def WSteps : World → World → Prop := Relation.ReflTransGen WStep

/-- A signature is dead for an object slot: the generation counter has moved
past it and the slot (if occupied) holds a different generation. -/
def DeadSig (slot : Nat) (sig : Int) (w : World) : Prop :=
  sig < w.nextSig ∧ ∀ e, w.objects slot = some e → e.signature ≠ sig

lemma WStep.nextSig_mono {w w' : World} (h : WStep w w') : w.nextSig ≤ w'.nextSig := by
  cases h <;>
    simp [World.destroyObj, World.spawnObj, World.updateObj, World.destroyPart,
      World.spawnPart]

lemma DeadSig.step {slot : Nat} {sig : Int} {w w' : World}
    (hstep : WStep w w') (hd : DeadSig slot sig w) : DeadSig slot sig w' := by
  obtain ⟨hlt, hne⟩ := hd
  cases hstep with
  | destroyObj s =>
    refine ⟨hlt, fun e he => ?_⟩
    simp only [World.destroyObj] at he
    by_cases hs : slot = s
    · simp [hs] at he
    · simp only [if_neg hs] at he
      exact hne e he
  | spawnObj s pos orient vel ws =>
    refine ⟨by simp [World.spawnObj]; omega, fun e he => ?_⟩
    simp only [World.spawnObj] at he
    by_cases hs : slot = s
    · rw [if_pos hs] at he
      obtain rfl := Option.some.inj he
      simp only []
      omega
    · rw [if_neg hs] at he
      exact hne e he
  | updateObj s pos orient vel ws =>
    refine ⟨hlt, fun e he => ?_⟩
    simp only [World.updateObj] at he
    by_cases hs : slot = s
    · rw [if_pos hs] at he
      rcases hw : w.objects s with _ | e0 <;> rw [hw] at he
      · simp at he
      · simp only [Option.some.injEq] at he
        have h0 : e0.signature ≠ sig := hne e0 (by rw [hs]; exact hw)
        rw [← he]
        exact h0
    · rw [if_neg hs] at he
      exact hne e he
  | destroyPart s =>
    exact ⟨hlt, fun e he => hne e he⟩
  | spawnPart s pos =>
    refine ⟨by simp [World.spawnPart]; omega, fun e he => hne e he⟩

lemma DeadSig.steps {slot : Nat} {sig : Int} {w w' : World}
    (hsteps : WSteps w w') (hd : DeadSig slot sig w) : DeadSig slot sig w' := by
  induction hsteps with
  | refl => exact hd
  | tail _ hstep ih => exact ih.step hstep

lemma object_h.resolve_of_deadSig {slot : Nat} {sig : Int} {w : World} {objnum : Int}
    (hd : DeadSig slot sig w) :
    (object_h.mk (some slot) objnum sig).resolve w = none := by
  simp only [object_h.resolve]
  rcases hw : w.objects slot with _ | e
  · rfl
  · simp [hd.2 e hw]

/-- C2: for a timing with finite begin < end, isActive holds exactly on
[begin, end), isFinished holds exactly at or after end, the two are mutually
exclusive and together with Pending (neither) cover every clock value; with
the unbounded end sentinel, isActive holds from begin onward and isFinished
never holds. -/
theorem SourceTiming.three_phase (c b e t tu : Int) (h : b < e) :
    ((SourceTiming.mk c (some b) (some e)).isActive t = true ↔ (b ≤ t ∧ t < e)) ∧
    ((SourceTiming.mk c (some b) (some e)).isFinished t = true ↔ e ≤ t) ∧
    ¬((SourceTiming.mk c (some b) (some e)).isActive t = true ∧
      (SourceTiming.mk c (some b) (some e)).isFinished t = true) ∧
    (((SourceTiming.mk c (some b) (some e)).isActive t = false ∧
      (SourceTiming.mk c (some b) (some e)).isFinished t = false) ∨
      (SourceTiming.mk c (some b) (some e)).isActive t = true ∨
      (SourceTiming.mk c (some b) (some e)).isFinished t = true) ∧
    ((SourceTiming.mk c (some b) none).isActive tu = true ↔ b ≤ tu) ∧
    ((SourceTiming.mk c (some b) none).isFinished tu = false) := by
  refine ⟨?_, ?_, ?_, ?_, ?_, ?_⟩
  · simp [SourceTiming.isActive]
  · simp [SourceTiming.isFinished]
  · simp only [SourceTiming.isActive, SourceTiming.isFinished, Bool.and_eq_true,
      decide_eq_true_eq]
    omega
  · simp only [SourceTiming.isActive, SourceTiming.isFinished, Bool.and_eq_true,
      Bool.and_eq_false_iff, decide_eq_true_eq, decide_eq_false_iff_not]
    omega
  · simp [SourceTiming.isActive]
  · simp [SourceTiming.isFinished]

theorem SourceTiming.three_phase_witness :
    (100 : Int) < 200 ∧
    (SourceTiming.mk 0 (some 100) (some 200)).isActive 150 = true ∧
    (SourceTiming.mk 0 (some 100) (some 200)).isFinished 150 = false := by
  have h := SourceTiming.three_phase 0 100 200 150 500 (by decide)
  exact ⟨by decide, h.1.mpr (by decide), by decide⟩

/-- C4: getLifeTimeProgress is -1 whenever the timing is not active or one
of the window ends is the unset sentinel; when active with finite begin and
end it is the linear interpolation of the clock, hence 0 at begin, and for
begin 100, end 200, clock 150 it is exactly one half. -/
theorem SourceTiming.lifeTimeProgress_spec (st : SourceTiming) (c t b e : Int) :
    (st.isActive t = false → st.getLifeTimeProgress t = -1) ∧
    (st.m_beginTimestamp = none → st.getLifeTimeProgress t = -1) ∧
    (st.m_endTimestamp = none → st.getLifeTimeProgress t = -1) ∧
    (st.m_beginTimestamp = some b → st.m_endTimestamp = some e → st.isActive t = true →
      st.getLifeTimeProgress t = ((t - b : Int) : Rat) / ((e - b : Int) : Rat)) ∧
    (b < e → (SourceTiming.mk c (some b) (some e)).getLifeTimeProgress b = 0) ∧
    ((SourceTiming.mk 0 (some 100) (some 200)).getLifeTimeProgress 150 = 1 / 2) := by
  refine ⟨?_, ?_, ?_, ?_, ?_, ?_⟩
  · intro ha; simp [SourceTiming.getLifeTimeProgress, ha]
  · intro hb
    simp only [SourceTiming.getLifeTimeProgress, hb]
    rcases (st.isActive t) <;> simp
  · intro he
    simp only [SourceTiming.getLifeTimeProgress, he]
    rcases hb : st.m_beginTimestamp with _ | b0 <;> rcases (st.isActive t) <;> simp
  · intro hb he ha
    simp [SourceTiming.getLifeTimeProgress, ha, hb, he]
  · intro hlt
    have ha : (SourceTiming.mk c (some b) (some e)).isActive b = true := by
      simp [SourceTiming.isActive]; omega
    simp [SourceTiming.getLifeTimeProgress, ha]
  · norm_num [SourceTiming.getLifeTimeProgress, SourceTiming.isActive]

theorem SourceTiming.lifeTimeProgress_witness :
    (100 : Int) < 200 ∧
    (SourceTiming.mk 7 (some 100) (some 200)).getLifeTimeProgress 100 = 0 ∧
    (SourceTiming.mk 0 (some 100) (some 200)).getLifeTimeProgress 150 = 1 / 2 :=
  ⟨by decide,
   (SourceTiming.lifeTimeProgress_spec (SourceTiming.mk 7 (some 100) (some 200))
      7 100 100 200).2.2.2.2.1 (by decide),
   (SourceTiming.lifeTimeProgress_spec (SourceTiming.mk 0 (some 100) (some 200))
      0 150 100 200).2.2.2.2.2⟩

/-- C3: isValid is settled by the origin type alone together with the weak
references it selects — NONE is never valid, VECTOR always is, OBJECT is
valid exactly when the weak entity handle resolves and the weapon-state
restriction is unset or matched, PARTICLE exactly when the weak particle
handle resolves; the stored position and offset play no role. -/
theorem SourceOrigin.isValid_by_type (o : SourceOrigin) (w : World) :
    (o.m_originType = SourceOriginType.NONE → o.isValid w = false) ∧
    (o.m_originType = SourceOriginType.VECTOR → o.isValid w = true) ∧
    (o.m_originType = SourceOriginType.OBJECT →
      (o.isValid w = true ↔ ∃ e, o.m_origin.m_object.resolve w = some e ∧
        (o.m_weaponState = WeaponState.INVALID ∨ e.weaponState = o.m_weaponState))) ∧
    (o.m_originType = SourceOriginType.PARTICLE →
      (o.isValid w = true ↔ (o.m_origin.m_particle.resolve w).isSome = true)) ∧
    (∀ p off, (SourceOrigin.mk o.m_originType
        ⟨p, o.m_origin.m_object, o.m_origin.m_particle⟩
        o.m_weaponState off).isValid w = o.isValid w) := by
  refine ⟨?_, ?_, ?_, ?_, ?_⟩
  · intro h; simp [SourceOrigin.isValid, h]
  · intro h; simp [SourceOrigin.isValid, h]
  · intro h
    simp only [SourceOrigin.isValid, h]
    rcases hr : o.m_origin.m_object.resolve w with _ | e
    · simp
    · simp
  · intro h; simp [SourceOrigin.isValid, h]
  · intro p off
    cases ht : o.m_originType <;> simp [SourceOrigin.isValid, ht]

theorem SourceOrigin.isValid_by_type_witness :
    (SourceOrigin.mk SourceOriginType.OBJECT
        ⟨vec3d.zero, ⟨some 0, 0, 5⟩, WeakParticlePtr.null⟩
        WeaponState.INVALID vec3d.zero).isValid
      ⟨fun s => if s = 0 then
          some ⟨5, vec3d.zero, matrix.ident, vec3d.zero, WeaponState.NORMAL⟩ else none,
        fun _ => none, 6⟩ = true :=
  ((SourceOrigin.isValid_by_type _ _).2.2.1 rfl).mpr
    ⟨⟨5, vec3d.zero, matrix.ident, vec3d.zero, WeaponState.NORMAL⟩,
     by simp [object_h.resolve], Or.inl rfl⟩

/-- C5: an origin configured by moveTo is always valid and getGlobalPosition
returns exactly the stored point, in every world state (the entity and
particle tables are irrelevant) and with no clock involved — neither query
even takes a time argument. -/
theorem SourceOrigin.moveTo_fixed_point (o : SourceOrigin) (p : vec3d) (w : World) :
    (o.moveTo p).isValid w = true ∧ (o.moveTo p).getGlobalPosition w = p := by
  constructor <;>
    simp [SourceOrigin.moveTo, SourceOrigin.isValid, SourceOrigin.getGlobalPosition]

/-- C6: an origin anchored to a live host object by moveToObject is valid,
becomes invalid the moment the host is destroyed, and stays invalid after
every further world evolution — including a fresh entity reusing the same
table slot, whose new generation signature can never match the captured
one. -/
theorem SourceOrigin.object_dead_stays_dead
    (o o' : SourceOrigin) (w : World) (slot : Nat) (e : Entity) (offset : vec3d)
    (hwf : WorldWF w) (hslot : w.objects slot = some e)
    (hnr : o.m_weaponState = WeaponState.INVALID)
    (hmv : o.moveToObject w (some slot) offset = Except.ok o') :
    o'.isValid w = true ∧
    o'.isValid (w.destroyObj slot) = false ∧
    ∀ w'', WSteps (w.destroyObj slot) w'' → o'.isValid w'' = false := by
  simp only [SourceOrigin.moveToObject, hslot] at hmv
  obtain rfl := Except.ok.inj hmv
  have hdead : DeadSig slot e.signature (w.destroyObj slot) := by
    refine ⟨hwf.1 slot e hslot, fun e' he' => ?_⟩
    simp [World.destroyObj] at he'
  refine ⟨?_, ?_, ?_⟩
  · simp [SourceOrigin.isValid, object_h.resolve, hslot, hnr]
  · simp [SourceOrigin.isValid, object_h.resolve_of_deadSig hdead]
  · intro w'' hsteps
    simp [SourceOrigin.isValid, object_h.resolve_of_deadSig (hdead.steps hsteps)]

theorem SourceOrigin.object_dead_stays_dead_witness :
    (SourceOrigin.mk SourceOriginType.OBJECT
        ⟨vec3d.zero, ⟨some 0, 0, 0⟩, WeakParticlePtr.null⟩
        WeaponState.INVALID ⟨0, 1, 0⟩).isValid
      ⟨fun s => if s = 0 then
          some ⟨0, vec3d.zero, matrix.ident, vec3d.zero, WeaponState.INVALID⟩ else none,
        fun _ => none, 1⟩ = true ∧
    (SourceOrigin.mk SourceOriginType.OBJECT
        ⟨vec3d.zero, ⟨some 0, 0, 0⟩, WeakParticlePtr.null⟩
        WeaponState.INVALID ⟨0, 1, 0⟩).isValid
      ((World.mk (fun s => if s = 0 then
          some ⟨0, vec3d.zero, matrix.ident, vec3d.zero, WeaponState.INVALID⟩ else none)
        (fun _ => none) 1).destroyObj 0) = false ∧
    (SourceOrigin.mk SourceOriginType.OBJECT
        ⟨vec3d.zero, ⟨some 0, 0, 0⟩, WeakParticlePtr.null⟩
        WeaponState.INVALID ⟨0, 1, 0⟩).isValid
      (((World.mk (fun s => if s = 0 then
          some ⟨0, vec3d.zero, matrix.ident, vec3d.zero, WeaponState.INVALID⟩ else none)
        (fun _ => none) 1).destroyObj 0).spawnObj 0 vec3d.zero matrix.ident vec3d.zero
          WeaponState.INVALID) = false := by
  have h := SourceOrigin.object_dead_stays_dead SourceOrigin.new _
    (World.mk (fun s => if s = 0 then
        some ⟨0, vec3d.zero, matrix.ident, vec3d.zero, WeaponState.INVALID⟩ else none)
      (fun _ => none) 1)
    0 ⟨0, vec3d.zero, matrix.ident, vec3d.zero, WeaponState.INVALID⟩ ⟨0, 1, 0⟩
    ⟨fun s e' he' => by
        by_cases hs : s = 0
        · subst hs; simp at he'; rw [← he']; decide
        · simp [hs] at he',
      fun s p hp => by simp at hp⟩
    (by simp) rfl rfl
  exact ⟨h.1, h.2.1, h.2.2 _ (Relation.ReflTransGen.single
    (WStep.spawnObj _ 0 vec3d.zero matrix.ident vec3d.zero WeaponState.INVALID))⟩

/-- One mutation of a SourceOrientation, used to talk about all histories in
which setNormal was or was not ever called. -/
inductive OrientOp where
  | fromVector (v : vec3d)
  | fromNormalizedVector (v : vec3d)
  | fromMatrix (m : matrix)
  | setN (n : vec3d)

def OrientOp.isSetNormal : OrientOp → Bool
  | OrientOp.setN _ => true
  | _ => false

def SourceOrientation.applyOp (o : SourceOrientation) : OrientOp → SourceOrientation
  | OrientOp.fromVector v => o.setFromVector v
  | OrientOp.fromNormalizedVector v => o.setFromNormalizedVector v
  | OrientOp.fromMatrix m => o.setFromMatrix m
  | OrientOp.setN n => o.setNormal n

def SourceOrientation.applyOps (o : SourceOrientation) (ops : List OrientOp) : SourceOrientation :=
  ops.foldl SourceOrientation.applyOp o

lemma SourceOrientation.applyOps_hasNormal_false (ops : List OrientOp) :
    ∀ o : SourceOrientation, o.m_hasNormal = false →
      ops.all (fun op => ! op.isSetNormal) = true →
      (o.applyOps ops).m_hasNormal = false := by
  induction ops with
  | nil => intro o h _; simpa [SourceOrientation.applyOps] using h
  | cons op rest ih =>
    intro o h hall
    simp only [List.all_cons, Bool.and_eq_true] at hall
    have hop : (o.applyOp op).m_hasNormal = false := by
      cases op with
      | fromVector v =>
        simpa [SourceOrientation.applyOp, SourceOrientation.setFromVector] using h
      | fromNormalizedVector v =>
        simpa [SourceOrientation.applyOp, SourceOrientation.setFromNormalizedVector] using h
      | fromMatrix m =>
        simpa [SourceOrientation.applyOp, SourceOrientation.setFromMatrix] using h
      | setN n => simp [OrientOp.isSetNormal] at hall
    exact ih (o.applyOp op) hop hall.2

/-- C9: along any history of orientation mutations that never calls
setNormal, getNormal returns false and hands back the pointed-to memory
unchanged; after a setNormal call, getNormal returns true and writes the
stored normal. -/
theorem SourceOrientation.normal_channel (ops : List OrientOp) (mem n : vec3d)
    (o : SourceOrientation)
    (hno : ops.all (fun op => ! op.isSetNormal) = true) :
    (SourceOrientation.new.applyOps ops).getNormal mem = (false, mem) ∧
    (o.setNormal n).getNormal mem = (true, n) := by
  constructor
  · have h := SourceOrientation.applyOps_hasNormal_false ops SourceOrientation.new rfl hno
    simp [SourceOrientation.getNormal, h]
  · simp [SourceOrientation.getNormal, SourceOrientation.setNormal]

theorem SourceOrientation.normal_channel_witness :
    (SourceOrientation.new.applyOps
        [OrientOp.fromVector ⟨1, 2, 3⟩, OrientOp.fromMatrix matrix.ident]).getNormal
      ⟨7, 8, 9⟩ = (false, ⟨7, 8, 9⟩) ∧
    (SourceOrientation.new.setNormal ⟨4, 5, 6⟩).getNormal ⟨7, 8, 9⟩ = (true, ⟨4, 5, 6⟩) :=
  SourceOrientation.normal_channel
    [OrientOp.fromVector ⟨1, 2, 3⟩, OrientOp.fromMatrix matrix.ident]
    ⟨7, 8, 9⟩ ⟨4, 5, 6⟩ SourceOrientation.new (by decide)

/-- Origin with type NONE whose handle nonetheless carries a leftover
pointer to slot 3. -/
def staleOriginNone : SourceOrigin :=
  ⟨SourceOriginType.NONE, ⟨vec3d.zero, ⟨some 3, 3, 0⟩, WeakParticlePtr.null⟩,
   WeaponState.INVALID, vec3d.zero⟩

/-- OBJECT origin whose captured generation 0 no longer matches the entity
now occupying slot 0. -/
def staleOriginObj : SourceOrigin :=
  ⟨SourceOriginType.OBJECT, ⟨vec3d.zero, ⟨some 0, 0, 0⟩, WeakParticlePtr.null⟩,
   WeaponState.INVALID, vec3d.zero⟩

/-- World in which slot 0 was reused by a generation-1 entity. -/
def staleWorld : World :=
  ⟨fun s => if s = 0 then
      some ⟨1, vec3d.zero, matrix.ident, vec3d.zero, WeaponState.INVALID⟩ else none,
   fun _ => none, 2⟩

/-- C10: getObjectHost returns the cached raw pointer field unconditionally,
independent of the origin type, the weapon state and the world, so a
non-OBJECT origin or one whose host died still yields the leftover pointer
rather than null or a sentinel: shown on a NONE-typed origin and on an
OBJECT origin whose weak handle no longer resolves in the current world. -/
theorem SourceOrigin.getObjectHost_unchecked :
    (∀ o : SourceOrigin, o.getObjectHost = o.m_origin.m_object.objp) ∧
    (∀ (o : SourceOrigin) (ty : SourceOriginType) (ws : WeaponState) (p off : vec3d),
      (SourceOrigin.mk ty ⟨p, o.m_origin.m_object, o.m_origin.m_particle⟩
        ws off).getObjectHost = o.getObjectHost) ∧
    staleOriginNone.m_originType = SourceOriginType.NONE ∧
    staleOriginNone.getObjectHost = some 3 ∧
    staleOriginObj.m_origin.m_object.resolve staleWorld = none ∧
    staleOriginObj.isValid staleWorld = false ∧
    staleOriginObj.getObjectHost = some 0 :=
  ⟨fun _ => rfl, fun _ _ _ _ _ => rfl, rfl, rfl, rfl, rfl, rfl⟩

/-- Effect that always wants to keep emitting and leaves the offset as is. -/
def effTrue : ParticleEffect := ⟨fun _ => true, fun o => o.m_offset⟩

/-- Effect that signals a terminal state on its first emission step. -/
def effHalt : ParticleEffect := ⟨fun _ => false, fun o => o.m_offset⟩

/-- World with empty tables. -/
def wEmpty : World := ⟨fun _ => none, fun _ => none, 0⟩

/-- Source fixed at a world point, window [100, 200), keep-alive effect. -/
def srcPending : ParticleSource :=
  ⟨SourceOrigin.new.moveTo ⟨1, 2, 3⟩, SourceOrientation.new,
   SourceTiming.mk 0 (some 100) (some 200), some effTrue, 0⟩

/-- Source fixed at a world point, window [100, 200), terminal effect. -/
def srcActiveHalt : ParticleSource :=
  ⟨SourceOrigin.new.moveTo ⟨1, 2, 3⟩, SourceOrientation.new,
   SourceTiming.mk 0 (some 100) (some 200), some effHalt, 0⟩

/-- The returned continue flag of a process call, when no assertion fired. -/
def processResult : Except AssertViolation (Bool × ParticleSource) → Option Bool
  | Except.ok (b, _) => some b
  | Except.error _ => none

/-- The processing count after a process call, when no assertion fired. -/
def processCount : Except AssertViolation (Bool × ParticleSource) → Option Nat
  | Except.ok (_, s) => some s.m_processingCount
  | Except.error _ => none

/-- C1 (amended): with an effect set, process returns false (remove me) and
leaves the source untouched whenever the origin is invalid or the timing is
finished — in particular whenever an OBJECT origin lost its host; while the
origin is valid and the timing still pending it returns true without
emitting, the source again untouched.  (When active, the return value is
the keep-going flag of the effect, which may itself be false.) -/
theorem ParticleSource.process_contract (s : ParticleSource) (w : World) (t : Int)
    (eff : ParticleEffect) (heff : s.m_effect = some eff) :
    ((s.m_origin.isValid w = false ∨ s.m_timing.isFinished t = true) →
      s.process w t = Except.ok (false, s)) ∧
    (s.m_origin.isValid w = true → s.m_timing.isFinished t = false →
      s.m_timing.isActive t = false → s.process w t = Except.ok (true, s)) ∧
    (s.m_origin.m_originType = SourceOriginType.OBJECT →
      s.m_origin.m_origin.m_object.resolve w = none →
      s.process w t = Except.ok (false, s)) := by
  refine ⟨?_, ?_, ?_⟩
  · rintro (hv | hf)
    · simp [ParticleSource.process, heff, hv]
    · simp [ParticleSource.process, heff, hf]
  · intro hv hf ha
    simp [ParticleSource.process, heff, hv, hf, ha]
  · intro hty hres
    have hv : s.m_origin.isValid w = false := by
      simp [SourceOrigin.isValid, hty, hres]
    simp [ParticleSource.process, heff, hv]

theorem ParticleSource.process_contract_witness :
    srcPending.m_effect = some effTrue ∧
    srcPending.process wEmpty 50 = Except.ok (true, srcPending) :=
  ⟨rfl, (ParticleSource.process_contract srcPending wEmpty 50 effTrue rfl).2.1 rfl rfl rfl⟩

theorem ParticleSource.process_false_while_valid_cex :
    processResult (srcActiveHalt.process wEmpty 150) = some false ∧
    srcActiveHalt.m_origin.isValid wEmpty = true ∧
    srcActiveHalt.m_timing.isFinished 150 = false :=
  ⟨rfl, rfl, rfl⟩

/-- C7: with a null effect, finishCreation and process fire the fatal
contract-violation assertion instead of silently doing nothing, and
setEffect refuses a null effect the same way. -/
theorem ParticleSource.null_effect_asserts (s : ParticleSource) (w : World) (t : Int)
    (h : s.m_effect = none) :
    s.finishCreation = Except.error AssertViolation.nullEffect ∧
    s.process w t = Except.error AssertViolation.nullEffect ∧
    (∀ s' : ParticleSource, s'.setEffect none = Except.error AssertViolation.nullEffect) := by
  refine ⟨?_, ?_, fun s' => rfl⟩
  · simp [ParticleSource.finishCreation, h]
  · simp [ParticleSource.process, h]

theorem ParticleSource.null_effect_asserts_witness :
    ParticleSource.new.m_effect = none ∧
    ParticleSource.new.finishCreation = Except.error AssertViolation.nullEffect ∧
    ParticleSource.new.process wEmpty 0 = Except.error AssertViolation.nullEffect :=
  ⟨rfl, (ParticleSource.null_effect_asserts ParticleSource.new wEmpty 0 rfl).1,
   (ParticleSource.null_effect_asserts ParticleSource.new wEmpty 0 rfl).2.1⟩

/-- C8 (amended): across any process call that returns (no assertion), the
processing count never decreases, and it grows by exactly one precisely when
the call reaches the active emission step (valid origin, not finished,
active); calls that return false from the invalid-or-finished check or
return true while pending leave it unchanged.  (A call that reaches the
emission step increments the count even when the effect then signals a
terminal state and the call returns false.) -/
theorem ParticleSource.processingCount_spec (s : ParticleSource) (w : World) (t : Int)
    (eff : ParticleEffect) (r : Bool) (s' : ParticleSource)
    (heff : s.m_effect = some eff) (hp : s.process w t = Except.ok (r, s')) :
    s.m_processingCount ≤ s'.m_processingCount ∧
    s'.m_processingCount = s.m_processingCount +
      (if s.m_origin.isValid w = true ∧ s.m_timing.isFinished t = false ∧
          s.m_timing.isActive t = true then 1 else 0) ∧
    ((s.m_origin.isValid w = false ∨ s.m_timing.isFinished t = true ∨
        s.m_timing.isActive t = false) → s'.m_processingCount = s.m_processingCount) := by
  rcases hv : s.m_origin.isValid w <;> rcases hf : s.m_timing.isFinished t <;>
    rcases ha : s.m_timing.isActive t <;>
    simp only [ParticleSource.process, heff, hv, hf, ha, Bool.not_true, Bool.not_false,
      Bool.false_or, Bool.true_or, Bool.or_false, Bool.or_true, if_true, if_false,
      Bool.false_eq_true, Bool.true_eq_false, ite_true, ite_false,
      Except.ok.injEq, Prod.mk.injEq] at hp <;>
    obtain ⟨hr, hs⟩ := hp <;> subst hs <;>
    simp [hv, hf, ha]

theorem ParticleSource.processingCount_witness :
    srcPending.m_effect = some effTrue ∧
    (ParticleSource.mk (SourceOrigin.new.moveTo ⟨1, 2, 3⟩) SourceOrientation.new
        (SourceTiming.mk 0 (some 100) (some 200)) (some effTrue) 1).m_processingCount =
      srcPending.m_processingCount +
      (if srcPending.m_origin.isValid wEmpty = true ∧
          srcPending.m_timing.isFinished 150 = false ∧
          srcPending.m_timing.isActive 150 = true then 1 else 0) :=
  ⟨rfl, (ParticleSource.processingCount_spec srcPending wEmpty 150 effTrue true
      (ParticleSource.mk (SourceOrigin.new.moveTo ⟨1, 2, 3⟩) SourceOrientation.new
        (SourceTiming.mk 0 (some 100) (some 200)) (some effTrue) 1) rfl rfl).2.1⟩

theorem ParticleSource.processingCount_false_return_cex :
    processResult (srcActiveHalt.process wEmpty 150) = some false ∧
    processCount (srcActiveHalt.process wEmpty 150) =
      some (srcActiveHalt.m_processingCount + 1) :=
  ⟨rfl, rfl⟩
